import Mathlib

set_option autoImplicit false

namespace AIVideoGen

/-!
Shallow embedding of the job-orchestration core of
`src/frontend/app/page.tsx` (the first document in that file, lines 1-1712):
the generic status pollers, the training lifecycle controller, the voice
upload/clone coordinator, and the remaining-time / phase-description
renderers.  All definitions are translated directly from the TypeScript
source; JavaScript semantics (falsy `||` defaulting, truncated `%`,
`Math.floor` division on negatives) are made explicit.
-/

/-- JavaScript `a || b` on an optional string: `undefined` and the empty
string are falsy, so both fall through to the default. -/
def jsOrString : Option String → String → String
  | none, d => d
  | some s, d => if s = "" then d else s

/-- JavaScript `String.prototype.padStart(2, '0')`. -/
def padStart2 (s : String) : String :=
  if s.length = 0 then "00" else if s.length = 1 then "0" ++ s else s

/-- `formatTime` (page.tsx lines 689-696): `!seconds` sends `undefined` and
`0` to `"00:00"`; otherwise `Math.floor(seconds/60)` is floor division
(`Int.fdiv`) and JavaScript `%` is truncated remainder (`Int.tmod`), both
rendered with `padStart(2,'0')`. -/
def formatTime : Option Int → String
  | none => "00:00"
  | some seconds =>
    if seconds = 0 then "00:00"
    else
      padStart2 (toString (Int.fdiv seconds 60)) ++ ":" ++
        padStart2 (toString (Int.tmod seconds 60))

/-- JavaScript `Math.ceil(a / b)` for integer `a` and positive `b`. -/
def jsCeilDiv (a b : Int) : Int := -(Int.fdiv (-a) b)

/-- The estimated-time-remaining rendering (page.tsx lines 1598-1609): shown
only when `estimated_time_remaining` is present and `> 0`; strictly more
than 60 seconds renders as `Math.ceil(t/60)` minutes, otherwise as raw
seconds. -/
def renderEstimatedRemaining : Option Int → Option String
  | none => none
  | some t =>
    if 0 < t then
      some (if 60 < t then toString (jsCeilDiv t 60) ++ " minutes"
            else toString t ++ " seconds")
    else none

/-- The status-description rendering (page.tsx lines 1611-1631): six
recognized phase labels each render a fixed phrase; every other label
renders nothing (there is no fallback branch in the JSX). -/
def describeStatus (status : String) : Option String :=
  if status = "generating_script" then
    some "Creating an engaging script based on your input..."
  else if status = "generating_video" then
    some "Crafting your video with AI-powered visuals..."
  else if status = "adding_voiceover" then
    some "Adding professional narration to your video..."
  else if status = "enhancing_video" then
    some "Polishing and enhancing your video for best quality..."
  else if status = "processing_audio" then
    some "Fine-tuning audio for perfect synchronization..."
  else if status = "finalizing" then
    some "Putting the finishing touches on your masterpiece..."
  else none

/-! ### Generic job status polling -/

/-- The `result` payload of a job status response (page.tsx lines 28-34). -/
structure JobResult where
  script : String
  effects : List String
  video_path : String
  used_custom_model : Option Bool
  used_custom_voice : Option Bool
deriving DecidableEq, Repr

/-- One job status response body (page.tsx `JobStatus`, lines 25-37). -/
structure JobStatusData where
  status : String
  progress : Int
  result : Option JobResult
  error : Option String
  estimated_time_remaining : Option Int
deriving DecidableEq, Repr

/-- The client state mutated by the pollers: the `jobStatus`, `loading` and
`error` React states. -/
structure PollState where
  jobStatus : Option JobStatusData
  loading : Bool
  error : Option String
deriving DecidableEq, Repr

/-- What one status query yields: a parsed response body, or an exception at
the transport level (`axios` rejection). -/
inductive PollEvent
  | ok (js : JobStatusData)
  | transportError
deriving DecidableEq, Repr

/-- The terminal-status test used verbatim by every poll loop in the file:
`status === 'completed' || status === 'failed'`. -/
def isTerminalStatus (s : String) : Bool := s = "completed" || s = "failed"

/-- One tick of the interval-based poll loop (page.tsx lines 276-294).  A
successful query stores the response via `setJobStatus`; a terminal status
clears the interval (second component `false`) and the loading flag, and a
`failed` status surfaces `error || 'Video generation failed'`.  A transport
error clears the interval, clears loading and sets the generic
status-check message. -/
def statusPollStep (st : PollState) (e : PollEvent) : PollState × Bool :=
  match e with
  | .ok js =>
    let st1 := { st with jobStatus := some js }
    if isTerminalStatus js.status then
      ({ st1 with
          loading := false,
          error := if js.status = "failed" then
              some (jsOrString js.error "Video generation failed")
            else st1.error }, false)
    else (st1, true)
  | .transportError =>
    ({ st with
        loading := false,
        error := some "Failed to check video generation status" }, false)

/-- Runs the interval-based poll loop over a stream of query outcomes,
returning the final state and the number of status queries issued; the
loop stops as soon as a tick clears the interval. -/
def statusPollRun : PollState → List PollEvent → PollState × Nat
  | st, [] => (st, 0)
  | st, e :: es =>
    let (st1, cont) := statusPollStep st e
    if cont then
      let (stf, n) := statusPollRun st1 es
      (stf, n + 1)
    else (st1, 1)

/-- The self-rescheduling poller `startCheckingStatus` (page.tsx lines
699-732): each successful non-terminal read schedules another check; a
terminal read just clears loading; the catch branch clears loading and
schedules nothing further — it sets no error message. -/
def startCheckingStatusRun : PollState → List PollEvent → PollState × Nat
  | st, [] => (st, 0)
  | st, .ok js :: es =>
    let st1 := { st with jobStatus := some js }
    if isTerminalStatus js.status then ({ st1 with loading := false }, 1)
    else
      let (stf, n) := startCheckingStatusRun st1 es
      (stf, n + 1)
  | st, .transportError :: _ => ({ st with loading := false }, 1)

/-- One invocation of `checkStatus` inside `handleAdGeneration` (page.tsx
lines 762-775).  Neither branch clears the polling interval: a terminal
status only clears the loading flag, and the catch branch sets the ad
status-check message — so the function never stops the interval (only the
separate 5-minute `setTimeout` at lines 784-790 does). -/
def adCheckStep (st : PollState) (e : PollEvent) : PollState :=
  match e with
  | .ok js =>
    let st1 := { st with jobStatus := some js }
    if isTerminalStatus js.status then { st1 with loading := false } else st1
  | .transportError =>
    { st with
        loading := false,
        error := some "Failed to check ad generation status" }

/-- The ad-generation poll loop over the ticks that fire before the
5-minute cutoff clears the interval: every tick issues a status query,
regardless of what earlier ticks observed. -/
def adPollRun : PollState → List PollEvent → PollState × Nat
  | st, [] => (st, 0)
  | st, e :: es =>
    let (stf, n) := adPollRun (adCheckStep st e) es
    (stf, n + 1)

/-! ### Training lifecycle controller (`startTraining`, page.tsx lines 575-677) -/

/-- The client state touched by `startTraining`: the `trainingInProgress`,
`trainingProgress`, `modelId` and `error` React states. -/
structure TrainingState where
  trainingInProgress : Bool
  trainingProgress : Nat
  modelId : Option String
  error : Option String
deriving DecidableEq, Repr

/-- What one `GET training/status` query yields: an `axios` rejection
carrying an exception message, a response with `success: false`, or a
successful response carrying the reported model status. -/
inductive TrainResp
  | transportThrow (msg : String)
  | notSuccess
  | ok (status : String)
deriving DecidableEq, Repr

/-- How the poll loop ended, seen from the `while` loop of page.tsx lines
626-664.  `outOfResponses` is a model artifact: the supplied response list
was exhausted while the loop was still live (in the source the loop would
simply issue another query). -/
inductive PollExit
  | completedExit
  | attemptsExhausted
  | threwFailed
  | threwTransport (msg : String)
  | outOfResponses (attempts : Nat)
deriving DecidableEq, Repr

/-- The non-terminal arms of the `switch (status)` at page.tsx lines
641-661: each known phase pins `trainingProgress` to its checkpoint;
unknown labels leave it unchanged (no `default` case). -/
def applyTrainingStatus (s : String) (st : TrainingState) : TrainingState :=
  if s = "preprocessing" then { st with trainingProgress := 60 }
  else if s = "feature_extraction" then { st with trainingProgress := 70 }
  else if s = "training" then { st with trainingProgress := 80 }
  else if s = "finetuning" then { st with trainingProgress := 90 }
  else st

/-- The training poll loop (page.tsx lines 623-664), driven by a list of
query outcomes.  Mirrors the source exactly: the loop runs while
`!isCompleted && attempts < 30`; an `axios` rejection propagates out of the
loop; a `success: false` response hits `continue` BEFORE the `attempts++`
at line 663, so it is retried without consuming an attempt; `"failed"`
throws; `"completed"` pins progress to 100, stores the model id and ends
the loop; any other status updates the checkpoint and consumes one
attempt.  Also returns the number of status queries issued beyond `q`. -/
def trainingPollLoop (mid : String) : List TrainResp → Nat → TrainingState → Nat →
    PollExit × TrainingState × Nat
  | [], a, st, q =>
    if a < 30 then (.outOfResponses a, st, q) else (.attemptsExhausted, st, q)
  | .transportThrow msg :: _, a, st, q =>
    if a < 30 then (.threwTransport msg, st, q + 1)
    else (.attemptsExhausted, st, q)
  | .notSuccess :: rest, a, st, q =>
    if a < 30 then trainingPollLoop mid rest a st (q + 1)
    else (.attemptsExhausted, st, q)
  | .ok s :: rest, a, st, q =>
    if a < 30 then
      if s = "failed" then (.threwFailed, st, q + 1)
      else if s = "completed" then
        (.completedExit,
          { st with trainingProgress := 100, modelId := some mid }, q + 1)
      else trainingPollLoop mid rest (a + 1) (applyTrainingStatus s st) (q + 1)
    else (.attemptsExhausted, st, q)

/-- Outcome of the `POST upload-training` request. -/
inductive UploadTrainingResp
  | transportThrow (msg : String)
  | ok (success : Bool) (model_id : String) (error : Option String)
deriving DecidableEq, Repr

/-- Outcome of the `POST training/start` request. -/
inductive StartTrainingResp
  | transportThrow (msg : String)
  | ok (success : Bool) (error : Option String)
deriving DecidableEq, Repr

/-- The remote responses one run of `startTraining` consumes. -/
structure TrainingEnv where
  uploadResp : UploadTrainingResp
  startResp : StartTrainingResp
  polls : List TrainResp
deriving DecidableEq, Repr

/-- Result of a `startTraining` run: the final client state together with
the total number of HTTP requests issued (upload + start + status
queries); `pollsExhausted` is the model artifact for a run whose poll
response list ran out while the loop was live. -/
inductive TrainingRunResult
  | done (st : TrainingState) (calls : Nat)
  | pollsExhausted (st : TrainingState) (calls : Nat) (attempts : Nat)
deriving DecidableEq, Repr

/-- The whole of `startTraining` (page.tsx lines 575-677).  Fewer than 3
training assets is rejected at line 576 with the error message and an
early return, before any request is issued.  Otherwise the upload and
start steps each throw on transport failure or on `success: false`
(`error || <default>` messages), setting progress 30 and 50 on their
successes, and the poll loop's thrown exits land in the outer `catch`,
which stores the exception message and clears `trainingInProgress`. -/
def startTrainingRun (numAssets : Nat) (env : TrainingEnv) (st0 : TrainingState) :
    TrainingRunResult :=
  if numAssets < 3 then
    .done { st0 with
        error := some "Please upload at least 3 images or videos for training" } 0
  else
    let st1 : TrainingState := { st0 with trainingInProgress := true, error := none }
    match env.uploadResp with
    | .transportThrow msg =>
      .done { st1 with error := some msg, trainingInProgress := false } 1
    | .ok success mid uerr =>
      if success = false then
        .done { st1 with
            error := some (jsOrString uerr "Failed to upload training files"),
            trainingInProgress := false } 1
      else
        let st2 : TrainingState := { st1 with trainingProgress := 30 }
        match env.startResp with
        | .transportThrow msg =>
          .done { st2 with error := some msg, trainingInProgress := false } 2
        | .ok ssucc serr =>
          if ssucc = false then
            .done { st2 with
                error := some (jsOrString serr "Failed to start training"),
                trainingInProgress := false } 2
          else
            let st3 : TrainingState := { st2 with trainingProgress := 50 }
            match trainingPollLoop mid env.polls 0 st3 0 with
            | (.completedExit, stf, qn) =>
              .done { stf with trainingInProgress := false } (2 + qn)
            | (.attemptsExhausted, stf, qn) =>
              .done { stf with
                  error := some "Training timed out. The process may still be running in the background.",
                  trainingInProgress := false } (2 + qn)
            | (.threwFailed, stf, qn) =>
              .done { stf with
                  error := some "Training failed. Please try again.",
                  trainingInProgress := false } (2 + qn)
            | (.threwTransport msg, stf, qn) =>
              .done { stf with
                  error := some msg,
                  trainingInProgress := false } (2 + qn)
            | (.outOfResponses a, stf, qn) => .pollsExhausted stf (2 + qn) a

/-- Holds of a training status response that is successful (`success:
true`) and reports a non-terminal phase. -/
def okNonTerminal : TrainResp → Bool
  | .ok s => !(s = "completed" || s = "failed")
  | _ => false

/-- A generic in-flight training state used by concrete evaluations. -/
def trainingState0 : TrainingState :=
  { trainingInProgress := true, trainingProgress := 50, modelId := none, error := none }

/-! ### Voice upload & clone coordinator (page.tsx lines 456-547) -/

/-- A selectable uploaded voice (page.tsx `VoiceFile`, lines 51-55). -/
structure VoiceFile where
  id : String
  name : String
  url : String
deriving DecidableEq, Repr

/-- The client state touched by the voice flows: the `uploadedVoices`,
`selectedVoice`, `loading` and `error` React states, plus the sequence of
`alert` notifications shown to the user. -/
structure VoiceState where
  uploadedVoices : List VoiceFile
  selectedVoice : Option String
  loading : Bool
  error : Option String
  alerts : List String
deriving DecidableEq, Repr

/-- Outcome of a `POST upload-voice` request: an `axios` rejection, or a
parsed `VoiceUploadResponse` body (page.tsx lines 57-65). -/
inductive VoiceUploadResp
  | transportThrow
  | ok (success : Bool) (voice_id : Option String) (filename : String)
      (filepath : String) (url : Option String)
deriving DecidableEq, Repr

/-- Outcome of a `POST clone-voice` request (page.tsx `CloneVoiceResponse`,
lines 67-73). -/
inductive CloneResp
  | transportThrow
  | ok (success : Bool) (voice_id : String) (error : Option String)
deriving DecidableEq, Repr

/-- The object literal built from a successful upload response at page.tsx
lines 468-472 and again at lines 534-538: a fallback id
`custom-<Date.now()>` when `voice_id` is falsy, and a fallback url. -/
def newVoiceEntry (voice_id : Option String) (filename : String)
    (url : Option String) (now : Nat) : VoiceFile :=
  { id := jsOrString voice_id ("custom-" ++ toString now),
    name := filename,
    url := jsOrString url ("/api/voices/" ++ filename) }

/-- The `setUploadedVoices(prev => [...prev, newVoice])` append followed by
`if (newVoice.id) setSelectedVoice(newVoice.id)` (page.tsx lines 473-476
and 539-542). -/
def addUploadedVoice (v : VoiceFile) (st : VoiceState) : VoiceState :=
  let st1 : VoiceState := { st with uploadedVoices := st.uploadedVoices ++ [v] }
  if v.id = "" then st1 else { st1 with selectedVoice := some v.id }

/-- `cloneVoice` (page.tsx lines 485-523).  Sets loading and clears the
error; the `if (!voiceName)` guard at line 494 aborts the branch on any
falsy `prompt` result — a cancelled dialog (`null`) or a cleared, empty
name — issuing no request and no alert; a transport rejection or a
`success: false` response alerts a failure message (with
`error || 'Unknown error'` in the latter case) and leaves the voice list
and selection untouched; success alerts, auto-selects the new voice id
(the `fetchVoices` refresh is a remote read not modeled here), and the
`finally` block always clears loading. -/
def cloneVoice (promptName : Option String) (resp : CloneResp)
    (st : VoiceState) : VoiceState :=
  let st1 : VoiceState := { st with loading := true, error := none }
  match promptName with
  | none => { st1 with loading := false }
  | some voiceName =>
    if voiceName = "" then { st1 with loading := false }
    else
      match resp with
      | .transportThrow =>
        { st1 with
            alerts := st1.alerts ++ ["Failed to clone voice. Please try again."],
            loading := false }
      | .ok success vid cerr =>
        if success then
          { st1 with
              alerts := st1.alerts ++
                ["Voice \"" ++ voiceName ++ "\" cloned successfully! You can now use it for video narration."],
              selectedVoice := some vid,
              loading := false }
        else
          { st1 with
              alerts := st1.alerts ++
                ["Failed to clone voice: " ++ jsOrString cerr "Unknown error"],
              loading := false }

/-- `uploadVoiceRecording` (page.tsx lines 456-483).  On upload success the
`confirm` dialog branches: accepting hands the uploaded filepath to
`cloneVoice` (without adding the raw asset anywhere); declining appends the
raw asset as a selectable voice.  A `success: false` body is silently
ignored (there is no else branch); a transport rejection alerts. -/
def uploadVoiceRecording (confirmClone : Bool) (promptName : Option String)
    (uploadResp : VoiceUploadResp) (cloneResp : CloneResp) (now : Nat)
    (st : VoiceState) : VoiceState :=
  match uploadResp with
  | .transportThrow =>
    { st with alerts := st.alerts ++ ["Failed to upload voice recording. Please try again."] }
  | .ok success vid filename _ url =>
    if success then
      if confirmClone then cloneVoice promptName cloneResp st
      else addUploadedVoice (newVoiceEntry vid filename url now) st
    else st

/-- `handleVoiceUpload` (page.tsx lines 525-547): the direct file-selection
path.  An empty file list returns immediately; a successful body builds
the same entry, appends and selects it; transport rejections and
`success: false` bodies change nothing. -/
def handleVoiceUpload (filesCount : Nat) (uploadResp : VoiceUploadResp)
    (now : Nat) (st : VoiceState) : VoiceState :=
  if filesCount = 0 then st
  else
    match uploadResp with
    | .transportThrow => st
    | .ok success vid filename _ url =>
      if success then addUploadedVoice (newVoiceEntry vid filename url now) st
      else st

/-- An empty initial voice state used by concrete evaluations. -/
def voiceState0 : VoiceState :=
  { uploadedVoices := [], selectedVoice := none, loading := false,
    error := none, alerts := [] }

/-- A non-terminal status response reporting 40% progress. -/
def js40 : JobStatusData :=
  { status := "generating_video", progress := 40, result := none,
    error := none, estimated_time_remaining := none }

/-- A later duplicate-phase response reporting only 30% progress. -/
def js30 : JobStatusData := { js40 with progress := 30 }

/-- A terminal `completed` status response carrying a result payload. -/
def jsCompleted : JobStatusData :=
  { status := "completed", progress := 100,
    result := some { script := "s", effects := [], video_path := "x.mp4",
                     used_custom_model := none, used_custom_voice := none },
    error := none, estimated_time_remaining := none }

/-! ### Helper lemmas -/

/-- A string starting with the literal `custom-` is never empty. -/
theorem customConcatNeEmpty (t : String) : ("custom-" ++ t) ≠ "" := by
  intro h
  have hlen : ("custom-" ++ t).length = 0 := by rw [h]; rfl
  rw [String.length_append] at hlen
  have h7 : ("custom-").length = 7 := rfl
  omega

/-- The voice entry built from an upload response always has a non-empty
id: either the remote non-empty `voice_id`, or the `custom-<timestamp>`
fallback. -/
theorem newVoiceEntry_id_ne (vid : Option String) (filename : String)
    (url : Option String) (now : Nat) :
    (newVoiceEntry vid filename url now).id ≠ "" := by
  cases vid with
  | none => exact customConcatNeEmpty _
  | some s =>
    show jsOrString (some s) _ ≠ ""
    by_cases h : s = "" <;> simp [jsOrString, h]
    exact customConcatNeEmpty _

/-! ### Claim theorems -/

/-- C3 counterexample: the interval-based poll loop forwards each read
verbatim, so two consecutive non-terminal updates reporting progress 40
then 30 leave the displayed progress at 30 — the progress regresses while
the status is non-terminal, contradicting the claimed monotonicity. -/
theorem c3_counterexample :
    isTerminalStatus js40.status = false ∧
    isTerminalStatus js30.status = false ∧
    statusPollStep { jobStatus := none, loading := true, error := none }
        (PollEvent.ok js40) =
      ({ jobStatus := some js40, loading := true, error := none }, true) ∧
    statusPollStep { jobStatus := some js40, loading := true, error := none }
        (PollEvent.ok js30) =
      ({ jobStatus := some js30, loading := true, error := none }, true) ∧
    js30.progress < js40.progress := by decide

/-- C3 (amended): the poll loop applies no monotonicity clamp at all — each
successful query overwrites the stored job status with exactly the
response body, so the displayed progress after an update equals the
remotely reported progress, whether or not it decreased. -/
theorem c3_amended (st : PollState) (js : JobStatusData) :
    ((statusPollStep st (PollEvent.ok js)).1).jobStatus = some js := by
  unfold statusPollStep
  dsimp only
  split <;> rfl

/-- C4 counterexample: `formatTime` renders a negative input as a signed
minute:second string, not as the `"00:00"` placeholder, and an estimate of
exactly 60 seconds renders as `"60 seconds"`, not as whole minutes — the
minutes branch requires strictly more than 60. -/
theorem c4_counterexample :
    formatTime (some (-5)) = "-1:-5" ∧
    formatTime (some (-5)) ≠ "00:00" ∧
    renderEstimatedRemaining (some 60) = some "60 seconds" := by decide

/-- C4 (amended): `formatTime` maps `undefined` and `0` to `"00:00"` and 45
to `"00:45"`, but negative inputs produce a signed string; the
estimated-remaining rendering uses ceiling minutes only for inputs
strictly greater than 60 seconds (so 125 renders as "3 minutes" while 60
renders as "60 seconds"). -/
theorem c4_amended :
    formatTime none = "00:00" ∧
    formatTime (some 0) = "00:00" ∧
    formatTime (some 45) = "00:45" ∧
    renderEstimatedRemaining (some 125) = some "3 minutes" ∧
    ∀ t : Int, 60 < t →
      renderEstimatedRemaining (some t) =
        some (toString (jsCeilDiv t 60) ++ " minutes") := by
  refine ⟨by decide, by decide, by decide, by decide, ?_⟩
  intro t ht
  have h0 : (0:Int) < t := by omega
  simp [renderEstimatedRemaining, h0, ht]

/-- C4 witness: the amended minutes rule evaluated at 125 seconds. -/
theorem c4_witness : renderEstimatedRemaining (some 125) = some "3 minutes" :=
  (c4_amended.2.2.2.2 125 (by decide)).trans (by decide)

/-- C6 counterexample: in the self-rescheduling poller
(`startCheckingStatus`) a transport failure stops polling after the failed
query but surfaces no error at all — the error state stays `none`, so no
synthesized failed Job carrying a generic status-check message exists. -/
theorem c6_counterexample :
    startCheckingStatusRun { jobStatus := none, loading := true, error := none }
        [PollEvent.transportError] =
      ({ jobStatus := none, loading := false, error := none }, 1) := by decide

/-- C6 (amended): a transport failure is fatal to both generic poll loops
(exactly one query is issued, none after it), but only the interval-based
loop surfaces the generic message 'Failed to check video generation
status'; the self-rescheduling loop stops silently, clearing only the
loading flag, and neither loop replaces the stored job status with a
failed Job. -/
theorem c6_amended :
    (∀ (st : PollState) (evs : List PollEvent),
        startCheckingStatusRun st (PollEvent.transportError :: evs) =
          ({ st with loading := false }, 1)) ∧
    (∀ (st : PollState) (evs : List PollEvent),
        statusPollRun st (PollEvent.transportError :: evs) =
          ({ st with
              loading := false,
              error := some "Failed to check video generation status" }, 1)) :=
  ⟨fun _ _ => rfl, fun _ _ => rfl⟩

/-- C7 counterexample: unrecognized status labels render no description at
all — there is no generic "processing" fallback phrase in the
status-description block. -/
theorem c7_counterexample :
    describeStatus "initializing" = none ∧
    describeStatus "unknown_phase" = none := by decide

/-- C7 (amended): the description rendering is total and never fails, but
it is partial in content: each of the six recognized labels renders a
fixed non-empty phrase, and every other label renders nothing. -/
theorem c7_amended :
    (∀ s : String, describeStatus s = none ∨
      ∃ p, describeStatus s = some p ∧ p ≠ "") ∧
    (∀ s : String, s ≠ "generating_script" → s ≠ "generating_video" →
      s ≠ "adding_voiceover" → s ≠ "enhancing_video" →
      s ≠ "processing_audio" → s ≠ "finalizing" → describeStatus s = none) := by
  constructor
  · intro s
    unfold describeStatus
    split_ifs <;> simp
  · intro s h1 h2 h3 h4 h5 h6
    unfold describeStatus
    rw [if_neg h1, if_neg h2, if_neg h3, if_neg h4, if_neg h5, if_neg h6]

/-- C7 witness: the amended fallback behavior evaluated at the unknown
label "queued". -/
theorem c7_witness : describeStatus "queued" = none :=
  c7_amended.2 "queued" (by decide) (by decide) (by decide) (by decide)
    (by decide) (by decide)

/-- C9: with fewer than 3 training assets, `startTraining` returns at the
local guard: the error message is stored, no HTTP request (upload, start
or status) is issued, and every other piece of training state is left
unchanged. -/
theorem c9_rejects_without_network (numAssets : Nat) (env : TrainingEnv)
    (st0 : TrainingState) (h : numAssets < 3) :
    startTrainingRun numAssets env st0 =
      TrainingRunResult.done { st0 with
        error := some "Please upload at least 3 images or videos for training" } 0 := by
  unfold startTrainingRun
  rw [if_pos h]

/-- C9 witness: the guard evaluated at 2 training assets. -/
theorem c9_witness :
    startTrainingRun 2
        ⟨UploadTrainingResp.transportThrow "x", StartTrainingResp.transportThrow "x", []⟩
        trainingState0 =
      TrainingRunResult.done { trainingState0 with
        error := some "Please upload at least 3 images or videos for training" } 0 :=
  c9_rejects_without_network 2 _ _ (by decide)

/-- C10: every selectable entry built from a successful upload response —
by direct file upload or by a recorded upload with cloning declined — has
a non-empty id (falling back to `custom-<timestamp>` when `voice_id` is
absent or empty), is appended after all existing entries, and becomes the
selected voice. -/
theorem c10_upload_entry (vid : Option String) (filename filepath : String)
    (url : Option String) (now k : Nat) (st : VoiceState)
    (promptName : Option String) (cloneResp : CloneResp) :
    (newVoiceEntry vid filename url now).id ≠ "" ∧
    ((vid = none ∨ vid = some "") →
      (newVoiceEntry vid filename url now).id = "custom-" ++ toString now) ∧
    handleVoiceUpload (k + 1) (VoiceUploadResp.ok true vid filename filepath url)
        now st =
      { st with
          uploadedVoices := st.uploadedVoices ++ [newVoiceEntry vid filename url now],
          selectedVoice := some (newVoiceEntry vid filename url now).id } ∧
    uploadVoiceRecording false promptName
        (VoiceUploadResp.ok true vid filename filepath url) cloneResp now st =
      { st with
          uploadedVoices := st.uploadedVoices ++ [newVoiceEntry vid filename url now],
          selectedVoice := some (newVoiceEntry vid filename url now).id } := by
  have hid := newVoiceEntry_id_ne vid filename url now
  refine ⟨hid, ?_, ?_, ?_⟩
  · rintro (rfl | rfl) <;> simp [newVoiceEntry, jsOrString]
  · unfold handleVoiceUpload
    rw [if_neg (Nat.succ_ne_zero k)]
    dsimp only
    unfold addUploadedVoice
    rw [if_neg hid]
    rfl
  · unfold uploadVoiceRecording
    dsimp only
    unfold addUploadedVoice
    rw [if_neg hid]
    rfl

/-- C10 witness: the fallback-id branch evaluated on a response with no
`voice_id`. -/
theorem c10_witness :
    (newVoiceEntry none "v.mp3" none 7).id = "custom-7" ∧
    handleVoiceUpload 1 (VoiceUploadResp.ok true none "v.mp3" "/tmp/v.mp3" none)
        7 voiceState0 =
      { voiceState0 with
          uploadedVoices := [{ id := "custom-7", name := "v.mp3", url := "/api/voices/v.mp3" }],
          selectedVoice := some "custom-7" } := by
  constructor
  · exact ((c10_upload_entry none "v.mp3" "/tmp/v.mp3" none 7 0 voiceState0
      none CloneResp.transportThrow).2.1 (Or.inl rfl)).trans (by decide)
  · have h := (c10_upload_entry none "v.mp3" "/tmp/v.mp3" none 7 0 voiceState0
      none CloneResp.transportThrow).2.2.1
    rw [h]
    decide

/-- While attempts remain, a run whose every response is a successful
non-terminal status report consumes exactly one attempt per query and
reaches the 30-attempt ceiling after exactly the missing number of
queries. -/
theorem trainingPollLoop_allOkNonTerminal (mid : String) (resps : List TrainResp) :
    ∀ (a : Nat) (st : TrainingState) (q : Nat),
      (∀ r ∈ resps, okNonTerminal r = true) → a ≤ 30 → 30 - a ≤ resps.length →
      ∃ stf, trainingPollLoop mid resps a st q =
        (PollExit.attemptsExhausted, stf, q + (30 - a)) := by
  induction resps with
  | nil =>
    intro a st q _ ha hlen
    simp only [List.length_nil, Nat.le_zero] at hlen
    have haeq : a = 30 := by omega
    subst haeq
    exact ⟨st, by simp [trainingPollLoop]⟩
  | cons r rest ih =>
    intro a st q hall ha hlen
    by_cases hlt : a < 30
    · have hr := hall r (List.mem_cons_self r rest)
      cases r with
      | transportThrow msg => simp [okNonTerminal] at hr
      | notSuccess => simp [okNonTerminal] at hr
      | ok s =>
        simp only [okNonTerminal, Bool.not_eq_true', Bool.or_eq_false_iff,
          decide_eq_false_iff_not] at hr
        obtain ⟨hsc, hsf⟩ := hr
        have step : trainingPollLoop mid (TrainResp.ok s :: rest) a st q =
            trainingPollLoop mid rest (a + 1) (applyTrainingStatus s st) (q + 1) := by
          simp only [trainingPollLoop, if_pos hlt, if_neg hsf, if_neg hsc]
        obtain ⟨stf, hstf⟩ := ih (a + 1) (applyTrainingStatus s st) (q + 1)
          (fun x hx => hall x (List.mem_cons_of_mem _ hx)) (by omega)
          (by simp only [List.length_cons] at hlen; omega)
        refine ⟨stf, ?_⟩
        rw [step, hstf]
        have : q + 1 + (30 - (a + 1)) = q + (30 - a) := by omega
        rw [this]
    · have haeq : a = 30 := by omega
      subst haeq
      refine ⟨st, ?_⟩
      cases r <;> simp [trainingPollLoop]

/-- Whenever the training poll loop ends at the 30-attempt ceiling, at
least `30 - a` further status queries were issued after attempt `a` —
in particular a timeout from attempt 0 involves at least 30 queries. -/
theorem trainingPollLoop_timeout_lower (mid : String) (resps : List TrainResp) :
    ∀ (a : Nat) (st : TrainingState) (q : Nat) (stf : TrainingState) (qf : Nat),
      trainingPollLoop mid resps a st q = (PollExit.attemptsExhausted, stf, qf) →
      q + (30 - a) ≤ qf := by
  induction resps with
  | nil =>
    intro a st q stf qf h
    by_cases hlt : a < 30
    · simp [trainingPollLoop, hlt] at h
    · simp only [trainingPollLoop, if_neg hlt, Prod.mk.injEq] at h
      omega
  | cons r rest ih =>
    intro a st q stf qf h
    by_cases hlt : a < 30
    · cases r with
      | transportThrow msg => simp [trainingPollLoop, hlt] at h
      | notSuccess =>
        simp only [trainingPollLoop, if_pos hlt] at h
        have := ih a st (q + 1) stf qf h
        omega
      | ok s =>
        simp only [trainingPollLoop, if_pos hlt] at h
        split_ifs at h with hsf hsc
        · simp at h
        · simp at h
        · have := ih (a + 1) (applyTrainingStatus s st) (q + 1) stf qf h
          omega
    · cases r <;>
        simp only [trainingPollLoop, if_neg hlt, Prod.mk.injEq] at h <;>
        omega

/-- C1 counterexample: a run of 31 `success: false` status responses
observes no terminal status, issues 31 status queries, yet does not time
out — the attempt counter is still 0 because `continue` skips the
increment — refuting both "exactly 30 polling attempts and then
timed_out" and "never polls more than 30 times". -/
theorem c1_counterexample :
    trainingPollLoop "m1" (List.replicate 31 TrainResp.notSuccess) 0 trainingState0 0 =
      (PollExit.outOfResponses 0, trainingState0, 31) := by decide

/-- C1 (amended): if every status query returns a successful response with
a non-terminal status, the loop makes exactly 30 polling attempts and then
times out, never fewer — and no timeout ever occurs before at least 30
queries have been issued.  Queries answered with `success: false` are
retried without consuming an attempt, so such runs poll more than 30
times. -/
theorem c1_amended :
    (∀ (mid : String) (resps : List TrainResp) (st : TrainingState),
        (∀ r ∈ resps, okNonTerminal r = true) → 30 ≤ resps.length →
        ∃ stf, trainingPollLoop mid resps 0 st 0 =
          (PollExit.attemptsExhausted, stf, 30)) ∧
    (∀ (mid : String) (resps : List TrainResp) (st stf : TrainingState) (qf : Nat),
        trainingPollLoop mid resps 0 st 0 = (PollExit.attemptsExhausted, stf, qf) →
        30 ≤ qf) := by
  constructor
  · intro mid resps st hall hlen
    simpa using trainingPollLoop_allOkNonTerminal mid resps 0 st 0 hall
      (by omega) (by omega)
  · intro mid resps st stf qf h
    simpa using trainingPollLoop_timeout_lower mid resps 0 st 0 stf qf h

/-- C1 witness: 30 successful `training`-phase reports produce exactly the
timeout after 30 queries. -/
theorem c1_witness :
    ∃ stf, trainingPollLoop "m1" (List.replicate 30 (TrainResp.ok "training"))
        0 trainingState0 0 = (PollExit.attemptsExhausted, stf, 30) :=
  c1_amended.1 "m1" (List.replicate 30 (TrainResp.ok "training")) trainingState0
    (by
      intro r hr
      rw [List.eq_of_mem_replicate hr]
      decide)
    (by simp)

/-- C2 counterexample: a transport-level rejection of the first status
query aborts the poll loop at once (exit `threwTransport` after one
query), and a `success: false` response consumes no attempt at all —
after it plus 29 successful non-terminal reads the counter shows 29, not
30, so the loop is still live rather than timed out. -/
theorem c2_counterexample :
    trainingPollLoop "m1" (TrainResp.transportThrow "Network Error" ::
        List.replicate 29 (TrainResp.ok "training")) 0 trainingState0 0 =
      (PollExit.threwTransport "Network Error", trainingState0, 1) ∧
    trainingPollLoop "m1" (TrainResp.notSuccess ::
        List.replicate 29 (TrainResp.ok "training")) 0 trainingState0 0 =
      (PollExit.outOfResponses 29,
        { trainingState0 with trainingProgress := 80 }, 30) := by decide

/-- C2 (amended): a training-status query that fails at the transport
level aborts the poll loop immediately and lands in the outer handler,
which stores the exception message and clears the in-progress flag; a
query that returns `success: false` is logged and skipped WITHOUT
consuming any of the 30 bounded attempts — polling just continues with
the next query. -/
theorem c2_amended :
    (∀ (mid : String) (rest : List TrainResp) (a : Nat) (st : TrainingState) (q : Nat),
        a < 30 →
        trainingPollLoop mid (TrainResp.notSuccess :: rest) a st q =
          trainingPollLoop mid rest a st (q + 1)) ∧
    (∀ (mid msg : String) (rest : List TrainResp) (a : Nat) (st : TrainingState) (q : Nat),
        a < 30 →
        trainingPollLoop mid (TrainResp.transportThrow msg :: rest) a st q =
          (PollExit.threwTransport msg, st, q + 1)) ∧
    (∀ st0 : TrainingState,
        startTrainingRun 3
          ⟨UploadTrainingResp.ok true "m1" none, StartTrainingResp.ok true none,
            [TrainResp.transportThrow "Network Error"]⟩ st0 =
          TrainingRunResult.done { st0 with
              trainingProgress := 50,
              error := some "Network Error",
              trainingInProgress := false } 3) := by
  refine ⟨?_, ?_, ?_⟩
  · intro mid rest a st q h
    simp [trainingPollLoop, h]
  · intro mid msg rest a st q h
    simp [trainingPollLoop, h]
  · intro st0
    rfl

/-- C2 witness: the skip-without-consuming rule evaluated on a single
failed query. -/
theorem c2_witness :
    trainingPollLoop "m1" [TrainResp.notSuccess] 0 trainingState0 0 =
      (PollExit.outOfResponses 0, trainingState0, 1) := by
  rw [c2_amended.1 "m1" [] 0 trainingState0 0 (by decide)]
  decide

/-- C5 counterexample: in the ad-generation poll loop the interval is
never cleared by `checkStatus` itself, so after a tick observes the
terminal `completed` status the next tick still issues a status query —
two queries for two ticks despite the first being terminal. -/
theorem c5_counterexample :
    isTerminalStatus jsCompleted.status = true ∧
    (adPollRun { jobStatus := none, loading := true, error := none }
        [PollEvent.ok jsCompleted, PollEvent.ok jsCompleted]).2 = 2 := by decide

/-- C5 (amended): the interval-based job poll loop does stop at the first
terminal observation — for any prefix of successful non-terminal reads
followed by a terminal read, exactly `prefix + 1` queries are issued and
the suffix is never queried.  The ad-generation loop, however, issues one
query per tick regardless of observed terminal statuses, until the
separate 5-minute cutoff clears its interval. -/
theorem c5_amended :
    (∀ (st : PollState) (pre : List PollEvent) (js : JobStatusData)
        (suf : List PollEvent),
        (∀ e ∈ pre, ∃ j, e = PollEvent.ok j ∧ isTerminalStatus j.status = false) →
        isTerminalStatus js.status = true →
        (statusPollRun st (pre ++ PollEvent.ok js :: suf)).2 = pre.length + 1) ∧
    (∀ (st : PollState) (evs : List PollEvent),
        (adPollRun st evs).2 = evs.length) := by
  constructor
  · intro st pre
    induction pre generalizing st with
    | nil =>
      intro js suf _ ht
      simp [statusPollRun, statusPollStep, ht]
    | cons e pre ih =>
      intro js suf hpre ht
      obtain ⟨j, rfl, hj⟩ := hpre e (List.mem_cons_self e pre)
      have hrec := ih { st with jobStatus := some j } js suf
        (fun x hx => hpre x (List.mem_cons_of_mem _ hx)) ht
      simp only [List.cons_append, statusPollRun, statusPollStep, hj]
      simp only [Bool.false_eq_true, if_false, if_true, List.length_cons]
      exact congrArg (fun n => n + 1) hrec
  · intro st evs
    induction evs generalizing st with
    | nil => rfl
    | cons e es ih =>
      simp only [adPollRun, List.length_cons]
      rw [ih]

/-- C5 witness: one non-terminal read followed by a terminal read stops
the interval-based loop after exactly two queries, with a further pending
tick never issued. -/
theorem c5_witness :
    (statusPollRun { jobStatus := none, loading := true, error := none }
        ([PollEvent.ok js40] ++ PollEvent.ok jsCompleted ::
          [PollEvent.ok jsCompleted])).2 = 2 := by
  have h := c5_amended.1 { jobStatus := none, loading := true, error := none }
    [PollEvent.ok js40] jsCompleted [PollEvent.ok jsCompleted]
    (by
      intro e he
      simp only [List.mem_singleton] at he
      exact ⟨js40, he, by decide⟩)
    (by decide)
  simpa using h

/-- C8 counterexample: after a successful upload with cloning accepted
and a failing clone request, the user is alerted but the uploaded voices
list is still empty and nothing is selected — the raw uploaded asset was
never added as a fallback selectable voice. -/
theorem c8_counterexample :
    (uploadVoiceRecording true (some "My Custom Voice")
        (VoiceUploadResp.ok true (some "v1") "rec.wav" "/tmp/rec.wav" none)
        (CloneResp.ok false "" none) 7 voiceState0).uploadedVoices = [] ∧
    (uploadVoiceRecording true (some "My Custom Voice")
        (VoiceUploadResp.ok true (some "v1") "rec.wav" "/tmp/rec.wav" none)
        (CloneResp.ok false "" none) 7 voiceState0).alerts =
      ["Failed to clone voice: Unknown error"] ∧
    (uploadVoiceRecording true (some "My Custom Voice")
        (VoiceUploadResp.ok true (some "v1") "rec.wav" "/tmp/rec.wav" none)
        (CloneResp.ok false "" none) 7 voiceState0).selectedVoice = none := by decide

/-- C8 (amended): when the user accepts cloning after a successful voice
upload, supplies a non-empty name, and the clone request fails — by
transport rejection or by a `success: false` response — exactly one
failure notification is shown, but the uploaded-voices list and the
selection are left untouched: the raw uploaded asset is only added as a
selectable fallback when the user DECLINES cloning, so the failing clone
branch ends with no new selectable voice.  (A falsy prompt name — the
dialog cancelled or the name cleared — instead aborts the branch
silently, issuing no clone request and no alert.) -/
theorem c8_amended (pn : String) (vid : Option String) (fn fp : String)
    (url : Option String) (now : Nat) (st : VoiceState) (cloneResp : CloneResp)
    (hpn : pn ≠ "")
    (hfail : cloneResp = CloneResp.transportThrow ∨
      ∃ v e, cloneResp = CloneResp.ok false v e) :
    (uploadVoiceRecording true (some pn) (VoiceUploadResp.ok true vid fn fp url)
        cloneResp now st).uploadedVoices = st.uploadedVoices ∧
    (uploadVoiceRecording true (some pn) (VoiceUploadResp.ok true vid fn fp url)
        cloneResp now st).selectedVoice = st.selectedVoice ∧
    (uploadVoiceRecording true (some pn) (VoiceUploadResp.ok true vid fn fp url)
        cloneResp now st).alerts.length = st.alerts.length + 1 ∧
    uploadVoiceRecording true (some "") (VoiceUploadResp.ok true vid fn fp url)
        cloneResp now st =
      { st with loading := false, error := none } := by
  rcases hfail with h | ⟨v, e, h⟩ <;> subst h <;>
    simp [uploadVoiceRecording, cloneVoice, hpn]

/-- C8 witness: the amended clone-failure behavior evaluated on a
transport-rejected clone request. -/
theorem c8_witness :
    (uploadVoiceRecording true (some "A")
        (VoiceUploadResp.ok true none "f.wav" "p" none)
        CloneResp.transportThrow 3 voiceState0).uploadedVoices =
      voiceState0.uploadedVoices ∧
    (uploadVoiceRecording true (some "A")
        (VoiceUploadResp.ok true none "f.wav" "p" none)
        CloneResp.transportThrow 3 voiceState0).selectedVoice =
      voiceState0.selectedVoice ∧
    (uploadVoiceRecording true (some "A")
        (VoiceUploadResp.ok true none "f.wav" "p" none)
        CloneResp.transportThrow 3 voiceState0).alerts.length =
      voiceState0.alerts.length + 1 ∧
    uploadVoiceRecording true (some "")
        (VoiceUploadResp.ok true none "f.wav" "p" none)
        CloneResp.transportThrow 3 voiceState0 =
      { voiceState0 with loading := false, error := none } :=
  c8_amended "A" none "f.wav" "p" none 3 voiceState0 CloneResp.transportThrow
    (by decide) (Or.inl rfl)

end AIVideoGen
